import Mathlib

/-!
Shallow embedding of `main.py` of the tautulli-exporter repository.

Times are modelled as integer seconds (`Nat`); the sentinel value of
`last_successful_scrape` is `0`, as in the source. Strings are modelled
with Lean's `String` restricted to ASCII, so Python's `str.isalnum`
becomes `Char.isAlphanum` on every character of a non-empty string.
-/

/-- `MAX_CONSECUTIVE_FAILURES = 5` (main.py line 41). -/
def MAX_CONSECUTIVE_FAILURES : Nat := 5

/-- One entry of the upstream session list; only the three decision
fields read by the classifier loop are modelled, each absent (`none`)
or present with a string value. -/
structure RawSession where
  transcode_video_decision : Option String
  transcode_audio_decision : Option String
  transcode_container_decision : Option String
  deriving DecidableEq

/-- The six exported gauges (main.py lines 32-37). -/
structure Gauges where
  active_streams_total : Nat
  active_streams_direct : Nat
  active_streams_transcode : Nat
  transcode_video : Nat
  transcode_audio : Nat
  transcode_container : Nat
  deriving DecidableEq

/-- `session.get('transcode_video_decision', 'direct play')` (line 189). -/
def videoDecision (s : RawSession) : String :=
  s.transcode_video_decision.getD "direct play"

/-- `session.get('transcode_audio_decision', 'direct play')` (line 190). -/
def audioDecision (s : RawSession) : String :=
  s.transcode_audio_decision.getD "direct play"

/-- `session.get('transcode_container_decision', 'direct play')` (line 191). -/
def containerDecision (s : RawSession) : String :=
  s.transcode_container_decision.getD "direct play"

/-- `any(decision == 'transcode' for decision in [video, audio, container])`
(lines 202-203). -/
def sessionIsTranscode (s : RawSession) : Bool :=
  videoDecision s == "transcode" || audioDecision s == "transcode" ||
    containerDecision s == "transcode"

/-- Body of the `for session in sessions` loop (lines 188-206): bump the
per-dimension transcode counters, then classify the session as one
transcode stream or one direct stream. -/
def classifyStep (acc : Gauges) (session : RawSession) : Gauges :=
  let video_decision := videoDecision session
  let audio_decision := audioDecision session
  let container_decision := containerDecision session
  let acc := if video_decision == "transcode" then
      { acc with transcode_video := acc.transcode_video + 1 } else acc
  let acc := if audio_decision == "transcode" then
      { acc with transcode_audio := acc.transcode_audio + 1 } else acc
  let acc := if container_decision == "transcode" then
      { acc with transcode_container := acc.transcode_container + 1 } else acc
  if video_decision == "transcode" || audio_decision == "transcode" ||
      container_decision == "transcode" then
    { acc with active_streams_transcode := acc.active_streams_transcode + 1 }
  else
    { acc with active_streams_direct := acc.active_streams_direct + 1 }

/-- Counter initialisation (lines 179-185: `total_streams = len(sessions)`,
all other counters `0`) followed by the session loop. -/
def classify (sessions : List RawSession) : Gauges :=
  sessions.foldl classifyStep
    { active_streams_total := sessions.length
      active_streams_direct := 0
      active_streams_transcode := 0
      transcode_video := 0
      transcode_audio := 0
      transcode_container := 0 }

/-- The mutable module state shared between the poll loop and the health
handler: `consecutive_failures`, `last_successful_scrape` (0 = never), and
the current values of the six gauges. -/
structure ExporterState where
  consecutive_failures : Nat
  last_successful_scrape : Nat
  gauges : Gauges
  deriving DecidableEq

/-- Answer of `GET /ready`: 200 READY, or 503 with a body reporting the
seconds since the last success and the failure count (lines 76-84). -/
inductive ReadyResponse where
  | ready
  | notReady (secondsSince : Nat) (failures : Nat)
  deriving DecidableEq

/-- HTTP status code of a `ReadyResponse`. -/
def ReadyResponse.status : ReadyResponse → Nat
  | .ready => 200
  | .notReady _ _ => 503

/-- `do_GET` for path `/ready` (main.py lines 64-84): ready when never
scraped yet, or when the last success is within two intervals and the
failure counter is below the circuit-breaker threshold. -/
def readyGET (st : ExporterState) (now : Nat) (SCRAPE_INTERVAL : Nat) :
    ReadyResponse :=
  let last_scrape := st.last_successful_scrape
  let failures := st.consecutive_failures
  let time_since_last_success := now - last_scrape
  if last_scrape = 0 ∨ (time_since_last_success < SCRAPE_INTERVAL * 2 ∧
      failures < MAX_CONSECUTIVE_FAILURES) then
    .ready
  else
    .notReady time_since_last_success failures

/-- `response.data.sessions` object: the `sessions` key may be absent. -/
structure DataObj where
  sessions : Option (List RawSession)
  deriving DecidableEq

/-- `response` object of the upstream JSON body: each key may be absent. -/
structure RespObj where
  result : Option String
  message : Option String
  data : Option DataObj
  deriving DecidableEq

/-- Top-level upstream JSON body: the `response` key may be absent. -/
structure Body where
  response : Option RespObj
  deriving DecidableEq

/-- What the outside world hands one poll tick: a timeout, a connection
error, a non-2xx status (raised by `raise_for_status`), a body that is
not valid JSON, or a parsed JSON body. -/
inductive PollInput where
  | timeout
  | connectionError
  | httpError
  | jsonDecodeError
  | ok (body : Body)
  deriving DecidableEq

/-- Lines 168-172 on a parsed body: `none` when the try-block raises
before the success point (result missing or not "success", raised at line
170; `data` key missing, a KeyError at line 172), otherwise the session
list, defaulting to `[]` when the `sessions` key is absent. -/
def parseSessions (body : Body) : Option (List RawSession) :=
  match body.response with
  | none => none
  | some resp =>
    if resp.result = some "success" then
      match resp.data with
      | none => none
      | some d => some (d.sessions.getD [])
    else none

/-- One call of `get_tautulli_activity` (lines 145-252). Returns the new
state and whether an HTTP request was issued: with the circuit breaker
open (failures at or above the threshold, lines 149-152) the function
returns at once and no request is made. On success the counter is reset,
the timestamp set, and the gauges replaced by the classification of the
sessions; every `except` arm increments the counter and touches nothing
else. -/
def pollStep (st : ExporterState) (now : Nat) (input : PollInput) :
    ExporterState × Bool :=
  if MAX_CONSECUTIVE_FAILURES ≤ st.consecutive_failures then
    (st, false)
  else
    match input with
    | .ok body =>
      match parseSessions body with
      | some sessions =>
        ({ consecutive_failures := 0
           last_successful_scrape := now
           gauges := classify sessions }, true)
      | none =>
        ({ st with consecutive_failures := st.consecutive_failures + 1 }, true)
    | _ => ({ st with consecutive_failures := st.consecutive_failures + 1 }, true)

/-- `true` for the inputs on which the try-block of
`get_tautulli_activity` ends in an `except` arm. -/
def PollInput.isFailureInput : PollInput → Bool
  | .ok body => (parseSessions body).isNone
  | _ => true

/-- The main loop's repeated ticks (lines 294-302), each with its own
current time and poll input; the issued-request flags are dropped. -/
def runTicks (st : ExporterState) (ticks : List (Nat × PollInput)) :
    ExporterState :=
  ticks.foldl (fun s t => (pollStep s t.1 t.2).1) st

/- Configuration validation (lines 111-143). -/

/-- The configuration values read from the environment (lines 25-29). -/
structure Config where
  TAUTULLI_URL : String
  API_KEY : String
  METRICS_PORT : Int
  SCRAPE_INTERVAL : Int
  deriving DecidableEq

/-- Characters allowed after the first letter of a URL scheme. -/
def isSchemeChar (c : Char) : Bool :=
  c.isAlpha || c.isDigit || c == '+' || c == '-' || c == '.'

/-- Split a character list at its first colon, `none` when there is no
colon. -/
def splitAtColon : List Char → Option (List Char × List Char)
  | [] => none
  | c :: cs =>
    if c = ':' then some ([], cs)
    else
      match splitAtColon cs with
      | some (pre, post) => some (c :: pre, post)
      | none => none

/-- A valid URL scheme: non-empty, starts with a letter, rest scheme
characters. -/
def validSchemeChars : List Char → Bool
  | [] => false
  | c :: cs => c.isAlpha && cs.all isSchemeChar

/-- The netloc part: present only when the text after the scheme (or the
whole URL when there is no scheme) starts with `//`, up to the next
`/`, `?` or `#`. -/
def netlocOf : List Char → List Char
  | '/' :: '/' :: r => r.takeWhile (fun c => c ≠ '/' ∧ c ≠ '?' ∧ c ≠ '#')
  | _ => []

/-- Model of `urllib.parse.urlparse` restricted to the two fields
`validate_config` reads: `(scheme, netloc)`, the scheme lowercased. -/
def urlparse (url : String) : String × String :=
  match splitAtColon url.data with
  | some (pre, post) =>
    if validSchemeChars pre then
      (⟨pre.map Char.toLower⟩, ⟨netlocOf post⟩)
    else ("", ⟨netlocOf url.data⟩)
  | none => ("", ⟨netlocOf url.data⟩)

/-- URL checks of `validate_config` (lines 115-125): required, must have
a scheme, the scheme must be http or https, and the netloc must be
non-empty. -/
def urlErrors (url : String) : List String :=
  if url = "" then ["TAUTULLI_URL environment variable is required"]
  else
    let parsed := urlparse url
    if parsed.1 = "" then ["TAUTULLI_URL must include http:// or https://"]
    else if ¬(parsed.1 = "http" ∨ parsed.1 = "https") then
      ["TAUTULLI_URL scheme must be http or https"]
    else if parsed.2 = "" then ["TAUTULLI_URL is not a valid URL"]
    else []

/-- `key.replace('_', '')` for the underscore-stripping in the API-key
check (line 131). -/
def stripUnderscores (s : String) : String :=
  ⟨s.data.filter (fun c => c != '_')⟩

/-- Python `str.isalnum` (ASCII): non-empty and every character
alphanumeric. -/
def pyIsalnum (s : String) : Bool :=
  !s.data.isEmpty && s.data.all Char.isAlphanum

/-- API-key checks of `validate_config` (lines 129-132): required, and
rejected when shorter than 16 characters or when the key with
underscores removed is not a non-empty alphanumeric string. -/
def apiKeyErrors (key : String) : List String :=
  if key = "" then ["TAUTULLI_API_KEY environment variable is required"]
  else if key.length < 16 ∨ pyIsalnum (stripUnderscores key) = false then
    ["TAUTULLI_API_KEY appears to be invalid format"]
  else []

/-- Port check of `validate_config` (lines 134-135). -/
def portErrors (port : Int) : List String :=
  if port < 1 ∨ port > 65535 then
    ["METRICS_PORT is not valid (must be 1-65535)"]
  else []

/-- Interval check of `validate_config` (lines 137-138). -/
def intervalErrors (i : Int) : List String :=
  if i < 5 then ["SCRAPE_INTERVAL is too low (minimum 5 seconds)"] else []

/-- `validate_config` (lines 111-143): the accumulated error list, in the
order the checks are appended. -/
def validate_config (cfg : Config) : List String :=
  urlErrors cfg.TAUTULLI_URL ++ apiKeyErrors cfg.API_KEY ++
    portErrors cfg.METRICS_PORT ++ intervalErrors cfg.SCRAPE_INTERVAL

/-- Outcome of `main` up to serving: `sys.exit(1)` when validation found
errors (line 143), otherwise the server starts. -/
inductive StartupResult where
  | exitCode (code : Nat)
  | serving
  deriving DecidableEq

/-- `main` (lines 260-291) as far as configuration goes: validation runs
before the HTTP server is created; a non-empty error list exits with
status 1 before anything is served. -/
def mainStartup (cfg : Config) : StartupResult :=
  if validate_config cfg = [] then .serving else .exitCode 1

theorem classifyStep_total (acc : Gauges) (s : RawSession) :
    (classifyStep acc s).active_streams_total = acc.active_streams_total := by
  cases hv : videoDecision s == "transcode" <;>
    cases ha : audioDecision s == "transcode" <;>
      cases hc : containerDecision s == "transcode" <;>
        simp [classifyStep, hv, ha, hc]

theorem classifyStep_direct_add_transcode (acc : Gauges) (s : RawSession) :
    (classifyStep acc s).active_streams_direct +
      (classifyStep acc s).active_streams_transcode
      = acc.active_streams_direct + acc.active_streams_transcode + 1 := by
  cases hv : videoDecision s == "transcode" <;>
    cases ha : audioDecision s == "transcode" <;>
      cases hc : containerDecision s == "transcode" <;>
        simp [classifyStep, hv, ha, hc] <;> omega

theorem classifyStep_fields (acc : Gauges) (s : RawSession) :
    (classifyStep acc s).active_streams_transcode
        = acc.active_streams_transcode + (if sessionIsTranscode s then 1 else 0) ∧
      (classifyStep acc s).active_streams_direct
        = acc.active_streams_direct + (if sessionIsTranscode s then 0 else 1) ∧
      (classifyStep acc s).transcode_video
        = acc.transcode_video + (if videoDecision s == "transcode" then 1 else 0) ∧
      (classifyStep acc s).transcode_audio
        = acc.transcode_audio + (if audioDecision s == "transcode" then 1 else 0) ∧
      (classifyStep acc s).transcode_container
        = acc.transcode_container + (if containerDecision s == "transcode" then 1 else 0) := by
  cases hv : videoDecision s == "transcode" <;>
    cases ha : audioDecision s == "transcode" <;>
      cases hc : containerDecision s == "transcode" <;>
        simp [classifyStep, sessionIsTranscode, hv, ha, hc]

theorem foldl_classifyStep_total (l : List RawSession) :
    ∀ acc : Gauges, (l.foldl classifyStep acc).active_streams_total
      = acc.active_streams_total := by
  induction l with
  | nil => intro acc; rfl
  | cons s t ih =>
    intro acc
    rw [List.foldl_cons, ih, classifyStep_total]

theorem foldl_classifyStep_direct_add_transcode (l : List RawSession) :
    ∀ acc : Gauges, (l.foldl classifyStep acc).active_streams_direct +
        (l.foldl classifyStep acc).active_streams_transcode
      = acc.active_streams_direct + acc.active_streams_transcode + l.length := by
  induction l with
  | nil => intro acc; simp
  | cons s t ih =>
    intro acc
    rw [List.foldl_cons, ih, classifyStep_direct_add_transcode]
    simp
    omega

/-- C3: for every list of raw sessions the classifier produces counts
with `direct + transcode = total` and `total = len(sessions)`: each
session increments exactly one of the two stream counters. -/
theorem classify_direct_add_transcode_eq_total (sessions : List RawSession) :
    (classify sessions).active_streams_direct +
        (classify sessions).active_streams_transcode
      = (classify sessions).active_streams_total ∧
    (classify sessions).active_streams_total = sessions.length := by
  unfold classify
  rw [foldl_classifyStep_total, foldl_classifyStep_direct_add_transcode]
  simp

/-- C5: `GET /ready` returns 200 READY exactly when the last-success
timestamp is the never-sentinel `0` or (`now - last_success < 2 *
poll_interval` and `failures < threshold`); otherwise it returns 503
with a body reporting the seconds since the last success and the
current failure count. -/
theorem readyGET_iff (st : ExporterState) (now SCRAPE_INTERVAL : Nat) :
    readyGET st now SCRAPE_INTERVAL =
      if st.last_successful_scrape = 0 ∨
          (now - st.last_successful_scrape < 2 * SCRAPE_INTERVAL ∧
            st.consecutive_failures < MAX_CONSECUTIVE_FAILURES) then
        .ready
      else
        .notReady (now - st.last_successful_scrape) st.consecutive_failures := by
  unfold readyGET
  rw [Nat.mul_comm SCRAPE_INTERVAL 2]

/-- C9: while no poll has ever succeeded (the last-success timestamp
still holds its initial sentinel `0`), `GET /ready` returns 200 READY
for every failure count — including counts at or above the
circuit-breaker threshold — and for every current time. -/
theorem readyGET_never_scraped (failures now SCRAPE_INTERVAL : Nat) (g : Gauges) :
    readyGET ⟨failures, 0, g⟩ now SCRAPE_INTERVAL = .ready := by
  unfold readyGET
  simp

theorem pollStep_failure_eq (st : ExporterState) (now : Nat) (input : PollInput)
    (hc : st.consecutive_failures < MAX_CONSECUTIVE_FAILURES)
    (hf : input.isFailureInput = true) :
    pollStep st now input =
      ({ st with consecutive_failures := st.consecutive_failures + 1 }, true) := by
  unfold pollStep
  rw [if_neg (by omega)]
  cases input with
  | ok body =>
    simp only [PollInput.isFailureInput] at hf
    cases hp : parseSessions body with
    | none => simp [hp]
    | some s => rw [hp] at hf; simp at hf
  | timeout => rfl
  | connectionError => rfl
  | httpError => rfl
  | jsonDecodeError => rfl

theorem pollStep_success_eq (st : ExporterState) (now : Nat) (body : Body)
    (sessions : List RawSession)
    (hc : st.consecutive_failures < MAX_CONSECUTIVE_FAILURES)
    (hp : parseSessions body = some sessions) :
    pollStep st now (.ok body) = (⟨0, now, classify sessions⟩, true) := by
  unfold pollStep
  rw [if_neg (by omega)]
  simp [hp]

/-- C1 counterexample: a state whose failure counter has reached the
threshold (5) but whose last-success timestamp is still the sentinel
`0`, with `now - last_success < 2 * poll_interval`, gets 200 READY from
`GET /ready`, not 503 — refuting the claim as stated. -/
theorem ready_at_threshold_with_sentinel :
    MAX_CONSECUTIVE_FAILURES ≤ (5 : Nat) ∧
    (1 : Nat) - 0 < 2 * 30 ∧
    readyGET ⟨5, 0, ⟨0, 0, 0, 0, 0, 0⟩⟩ 1 30 = .ready := by decide

/-- C1 (amended): for every state in which the failure counter has
reached the threshold (5) and at least one poll has succeeded (the
last-success timestamp is not the sentinel `0`), `GET /ready` returns
503 — for every current time, hence in particular even when
`now - last_success < 2 * poll_interval`. -/
theorem readyGET_circuit_open_503 (st : ExporterState) (now SCRAPE_INTERVAL : Nat)
    (hf : MAX_CONSECUTIVE_FAILURES ≤ st.consecutive_failures)
    (hl : st.last_successful_scrape ≠ 0) :
    (readyGET st now SCRAPE_INTERVAL).status = 503 := by
  have hcond : ¬(st.last_successful_scrape = 0 ∨
      (now - st.last_successful_scrape < SCRAPE_INTERVAL * 2 ∧
        st.consecutive_failures < MAX_CONSECUTIVE_FAILURES)) := by
    rintro (h0 | ⟨-, hlt⟩)
    · exact hl h0
    · omega
  simp only [readyGET]
  rw [if_neg hcond]
  rfl

theorem readyGET_circuit_open_503_witness :
    (readyGET ⟨5, 10, ⟨0, 0, 0, 0, 0, 0⟩⟩ 11 30).status = 503 :=
  readyGET_circuit_open_503 ⟨5, 10, ⟨0, 0, 0, 0, 0, 0⟩⟩ 11 30 (by decide) (by decide)

/-- C2: once the failure counter reaches the threshold (5), every
subsequent poll tick returns without issuing a request (the `Bool`
component of `pollStep` is `false`), and the state — in particular the
failure counter — never changes again for any remainder of the run. -/
theorem circuit_open_absorbing (st : ExporterState)
    (h : MAX_CONSECUTIVE_FAILURES ≤ st.consecutive_failures) :
    (∀ ticks : List (Nat × PollInput), runTicks st ticks = st) ∧
    (∀ (pre : List (Nat × PollInput)) (now : Nat) (input : PollInput),
      pollStep (runTicks st pre) now input = (st, false)) := by
  have hstep : ∀ (now : Nat) (input : PollInput), pollStep st now input = (st, false) := by
    intro now input
    unfold pollStep
    rw [if_pos h]
  have hrun : ∀ ticks : List (Nat × PollInput), runTicks st ticks = st := by
    intro ticks
    induction ticks with
    | nil => rfl
    | cons t ts ih =>
      unfold runTicks at ih ⊢
      rw [List.foldl_cons, hstep t.1 t.2]
      exact ih
  exact ⟨hrun, fun pre now input => by rw [hrun pre]; exact hstep now input⟩

theorem circuit_open_absorbing_witness :
    runTicks ⟨5, 0, ⟨0, 0, 0, 0, 0, 0⟩⟩ [(10, .timeout), (20, .ok ⟨none⟩)]
        = ⟨5, 0, ⟨0, 0, 0, 0, 0, 0⟩⟩ ∧
    pollStep ⟨5, 0, ⟨0, 0, 0, 0, 0, 0⟩⟩ 30 .timeout = (⟨5, 0, ⟨0, 0, 0, 0, 0, 0⟩⟩, false) :=
  ⟨(circuit_open_absorbing _ (by decide)).1 _,
   (circuit_open_absorbing _ (by decide)).2 [] 30 .timeout⟩

/-- C4: each of the three decision fields defaults to "direct play"
when absent; one classifier step adds exactly 1 to the transcode-stream
counter when any of the three fields equals "transcode" (even if two or
three do) and exactly 1 to the direct-stream counter otherwise; each
per-dimension counter is bumped exactly when its field equals
"transcode"; and the concrete two-session scenario yields
total 2, direct 1, transcode 1, video 1, audio 0, container 0. -/
theorem classify_per_session :
    (∀ s : RawSession, s.transcode_video_decision = none →
      videoDecision s = "direct play") ∧
    (∀ s : RawSession, s.transcode_audio_decision = none →
      audioDecision s = "direct play") ∧
    (∀ s : RawSession, s.transcode_container_decision = none →
      containerDecision s = "direct play") ∧
    (∀ (acc : Gauges) (s : RawSession),
      (classifyStep acc s).active_streams_transcode
          = acc.active_streams_transcode + (if sessionIsTranscode s then 1 else 0) ∧
        (classifyStep acc s).active_streams_direct
          = acc.active_streams_direct + (if sessionIsTranscode s then 0 else 1) ∧
        (classifyStep acc s).transcode_video
          = acc.transcode_video + (if videoDecision s == "transcode" then 1 else 0) ∧
        (classifyStep acc s).transcode_audio
          = acc.transcode_audio + (if audioDecision s == "transcode" then 1 else 0) ∧
        (classifyStep acc s).transcode_container
          = acc.transcode_container +
              (if containerDecision s == "transcode" then 1 else 0)) ∧
    classify [⟨some "transcode", some "direct play", some "direct play"⟩,
        ⟨some "direct play", some "direct play", some "direct play"⟩]
      = ⟨2, 1, 1, 1, 0, 0⟩ := by
  refine ⟨?_, ?_, ?_, classifyStep_fields, by decide⟩
  · intro s h; simp [videoDecision, h]
  · intro s h; simp [audioDecision, h]
  · intro s h; simp [containerDecision, h]

theorem classify_per_session_witness :
    videoDecision ⟨none, some "direct play", none⟩ = "direct play" :=
  classify_per_session.1 ⟨none, some "direct play", none⟩ rfl

/-- C6: every failed poll (timeout, connection error, HTTP status
error, malformed JSON, API-level error, or unexpected exception such as
a missing `data` key) leaves all six gauges unchanged and increments
the failure counter by exactly 1. -/
theorem failed_poll_frame (st : ExporterState) (now : Nat) (input : PollInput)
    (hc : st.consecutive_failures < MAX_CONSECUTIVE_FAILURES)
    (hf : input.isFailureInput = true) :
    (pollStep st now input).1.gauges = st.gauges ∧
    (pollStep st now input).1.consecutive_failures = st.consecutive_failures + 1 := by
  rw [pollStep_failure_eq st now input hc hf]
  exact ⟨rfl, rfl⟩

theorem failed_poll_frame_witness :
    (pollStep ⟨2, 50, ⟨3, 2, 1, 1, 0, 0⟩⟩ 100 .timeout).1.gauges = ⟨3, 2, 1, 1, 0, 0⟩ ∧
    (pollStep ⟨2, 50, ⟨3, 2, 1, 1, 0, 0⟩⟩ 100 .timeout).1.consecutive_failures = 3 :=
  failed_poll_frame ⟨2, 50, ⟨3, 2, 1, 1, 0, 0⟩⟩ 100 .timeout (by decide) (by decide)

/-- C7: every successful poll resets the failure counter to 0 and sets
the last-success timestamp to the current time; every failed poll
increments the counter by exactly 1 and leaves the last-success
timestamp unchanged. -/
theorem poll_updates (st : ExporterState) (now : Nat) (input : PollInput)
    (hc : st.consecutive_failures < MAX_CONSECUTIVE_FAILURES) :
    (input.isFailureInput = false →
      (pollStep st now input).1.consecutive_failures = 0 ∧
      (pollStep st now input).1.last_successful_scrape = now) ∧
    (input.isFailureInput = true →
      (pollStep st now input).1.consecutive_failures = st.consecutive_failures + 1 ∧
      (pollStep st now input).1.last_successful_scrape = st.last_successful_scrape) := by
  constructor
  · intro hs
    cases input with
    | ok body =>
      simp only [PollInput.isFailureInput] at hs
      cases hp : parseSessions body with
      | none => rw [hp] at hs; simp at hs
      | some sessions =>
        rw [pollStep_success_eq st now body sessions hc hp]
        exact ⟨rfl, rfl⟩
    | timeout => simp [PollInput.isFailureInput] at hs
    | connectionError => simp [PollInput.isFailureInput] at hs
    | httpError => simp [PollInput.isFailureInput] at hs
    | jsonDecodeError => simp [PollInput.isFailureInput] at hs
  · intro hf
    rw [pollStep_failure_eq st now input hc hf]
    exact ⟨rfl, rfl⟩

theorem poll_updates_witness :
    ((pollStep ⟨2, 50, ⟨3, 2, 1, 1, 0, 0⟩⟩ 100
        (.ok ⟨some ⟨some "success", none, some ⟨some []⟩⟩⟩)).1.consecutive_failures = 0 ∧
      (pollStep ⟨2, 50, ⟨3, 2, 1, 1, 0, 0⟩⟩ 100
        (.ok ⟨some ⟨some "success", none, some ⟨some []⟩⟩⟩)).1.last_successful_scrape = 100) ∧
    ((pollStep ⟨2, 50, ⟨3, 2, 1, 1, 0, 0⟩⟩ 100 .jsonDecodeError).1.consecutive_failures = 3 ∧
      (pollStep ⟨2, 50, ⟨3, 2, 1, 1, 0, 0⟩⟩ 100 .jsonDecodeError).1.last_successful_scrape = 50) :=
  ⟨(poll_updates ⟨2, 50, ⟨3, 2, 1, 1, 0, 0⟩⟩ 100 _ (by decide)).1 (by decide),
   (poll_updates ⟨2, 50, ⟨3, 2, 1, 1, 0, 0⟩⟩ 100 _ (by decide)).2 (by decide)⟩

/-- C10: for an HTTP 200 body with `response.result = "success"`: when
`response.data` exists but lacks the `sessions` key the poll succeeds
with an empty session list (counter reset, timestamp set, all six
gauges 0, with `classify [] = 0` across the board); when the body lacks
the `data` key the poll is a failure (counter +1, everything else —
gauges included — unchanged). -/
theorem success_missing_sessions_vs_missing_data
    (st : ExporterState) (now : Nat) (msg : Option String)
    (hc : st.consecutive_failures < MAX_CONSECUTIVE_FAILURES) :
    (pollStep st now (.ok ⟨some ⟨some "success", msg, some ⟨none⟩⟩⟩)).1
        = ⟨0, now, ⟨0, 0, 0, 0, 0, 0⟩⟩ ∧
    classify [] = ⟨0, 0, 0, 0, 0, 0⟩ ∧
    (pollStep st now (.ok ⟨some ⟨some "success", msg, none⟩⟩)).1
        = { st with consecutive_failures := st.consecutive_failures + 1 } := by
  refine ⟨?_, rfl, ?_⟩
  · rw [pollStep_success_eq st now _ [] hc (by simp [parseSessions])]
    rfl
  · rw [pollStep_failure_eq st now _ hc (by simp [PollInput.isFailureInput, parseSessions])]

theorem success_missing_sessions_vs_missing_data_witness :
    (pollStep ⟨2, 50, ⟨3, 2, 1, 1, 0, 0⟩⟩ 100
        (.ok ⟨some ⟨some "success", none, some ⟨none⟩⟩⟩)).1
      = ⟨0, 100, ⟨0, 0, 0, 0, 0, 0⟩⟩ :=
  (success_missing_sessions_vs_missing_data ⟨2, 50, ⟨3, 2, 1, 1, 0, 0⟩⟩ 100 none (by decide)).1

theorem pyIsalnum_stripUnderscores (key : String) :
    pyIsalnum (stripUnderscores key) = true ↔
      (key.data.all (fun c => c.isAlphanum || c == '_') = true ∧
        key.data.any (fun c => c.isAlphanum) = true) := by
  unfold pyIsalnum stripUnderscores
  simp only [Bool.and_eq_true, Bool.not_eq_true', List.isEmpty_eq_false,
    List.all_eq_true, List.any_eq_true, List.mem_filter, ne_eq,
    List.filter_eq_nil_iff, not_forall, Bool.or_eq_true, beq_iff_eq, bne_iff_ne]
  constructor
  · rintro ⟨hne, hall⟩
    constructor
    · intro c hc
      by_cases h : c = '_'
      · exact Or.inr (by simp [h])
      · exact Or.inl (hall c ⟨hc, by simp [h]⟩)
    · push_neg at hne
      obtain ⟨c, hc, hne'⟩ := hne
      exact ⟨c, hc, hall c ⟨hc, by simpa using hne'⟩⟩
  · rintro ⟨hall, c, hc, hcal⟩
    have hcne : c ≠ '_' := by
      intro h
      rw [h] at hcal
      simp at hcal
    constructor
    · push_neg
      exact ⟨c, hc, by simpa using hcne⟩
    · intro d ⟨hd, hdne⟩
      rcases hall d hd with h | h
      · exact h
      · simp [h] at hdne

theorem apiKeyErrors_eq_nil_iff (key : String) :
    apiKeyErrors key = [] ↔
      (key ≠ "" ∧ 16 ≤ key.length ∧
        key.data.all (fun c => c.isAlphanum || c == '_') = true ∧
        key.data.any (fun c => c.isAlphanum) = true) := by
  unfold apiKeyErrors
  split
  · case isTrue h => simp [h]
  · case isFalse h =>
    split
    · case isTrue h2 =>
      simp only [List.cons_ne_self, false_iff]
      rintro ⟨-, hlen, hall, hany⟩
      rcases h2 with hlt | hpy
      · omega
      · rw [(pyIsalnum_stripUnderscores key).mpr ⟨hall, hany⟩] at hpy
        simp at hpy
    · case isFalse h2 =>
      push_neg at h2
      obtain ⟨hlen, hpy⟩ := h2
      simp only [true_iff]
      refine ⟨h, by omega, ?_⟩
      exact (pyIsalnum_stripUnderscores key).mp (by simpa using hpy)

theorem validate_config_eq_nil_iff (cfg : Config) :
    validate_config cfg = [] ↔
      (urlErrors cfg.TAUTULLI_URL = [] ∧ apiKeyErrors cfg.API_KEY = [] ∧
        portErrors cfg.METRICS_PORT = [] ∧ intervalErrors cfg.SCRAPE_INTERVAL = []) := by
  unfold validate_config
  simp [List.append_eq_nil, and_assoc]

theorem urlErrors_ne_nil (url : String)
    (h : url = "" ∨ ¬((urlparse url).1 = "http" ∨ (urlparse url).1 = "https")) :
    urlErrors url ≠ [] := by
  simp only [urlErrors]
  by_cases h0 : url = ""
  · rw [if_pos h0]; simp
  · rw [if_neg h0]
    rcases h with h | h
    · exact absurd h h0
    · by_cases h1 : (urlparse url).1 = ""
      · rw [if_pos h1]; simp
      · rw [if_neg h1, if_pos h]; simp

/-- C8 (amended): configuration validation accepts a credential exactly
when it is non-empty, has length at least 16, consists only of
alphanumeric characters and underscores, and contains at least one
alphanumeric character; and every configuration failing validation —
invalid credential, missing or non-http/https URL, port outside
1-65535, or interval below 5 — makes the process exit with status 1
before serving anything. -/
theorem validate_config_spec :
    (∀ key : String, apiKeyErrors key = [] ↔
      (key ≠ "" ∧ 16 ≤ key.length ∧
        key.data.all (fun c => c.isAlphanum || c == '_') = true ∧
        key.data.any (fun c => c.isAlphanum) = true)) ∧
    (∀ cfg : Config, cfg.TAUTULLI_URL = "" ∨
        ¬((urlparse cfg.TAUTULLI_URL).1 = "http" ∨ (urlparse cfg.TAUTULLI_URL).1 = "https") →
      validate_config cfg ≠ []) ∧
    (∀ cfg : Config, apiKeyErrors cfg.API_KEY ≠ [] → validate_config cfg ≠ []) ∧
    (∀ cfg : Config, cfg.METRICS_PORT < 1 ∨ cfg.METRICS_PORT > 65535 →
      validate_config cfg ≠ []) ∧
    (∀ cfg : Config, cfg.SCRAPE_INTERVAL < 5 → validate_config cfg ≠ []) ∧
    (∀ cfg : Config, validate_config cfg ≠ [] → mainStartup cfg = .exitCode 1) := by
  refine ⟨apiKeyErrors_eq_nil_iff, ?_, ?_, ?_, ?_, ?_⟩
  · intro cfg h hnil
    exact urlErrors_ne_nil _ h ((validate_config_eq_nil_iff cfg).mp hnil).1
  · intro cfg h hnil
    exact h ((validate_config_eq_nil_iff cfg).mp hnil).2.1
  · intro cfg h hnil
    have := ((validate_config_eq_nil_iff cfg).mp hnil).2.2.1
    rw [portErrors, if_pos h] at this
    simp at this
  · intro cfg h hnil
    have := ((validate_config_eq_nil_iff cfg).mp hnil).2.2.2
    rw [intervalErrors, if_pos h] at this
    simp at this
  · intro cfg h
    unfold mainStartup
    rw [if_neg h]

/-- C8 counterexample: a credential of sixteen underscores is
non-empty, has length 16 and consists only of alphanumerics and
underscores, yet validation rejects it (Python `"".isalnum()` is false
after the underscores are stripped) — refuting the claimed
equivalence as stated. -/
theorem apiKey_underscores_rejected :
    ("________________" : String) ≠ "" ∧
    16 ≤ ("________________" : String).length ∧
    ("________________" : String).data.all (fun c => c.isAlphanum || c == '_') = true ∧
    apiKeyErrors "________________" ≠ [] := by decide

theorem validate_config_spec_witness :
    apiKeyErrors "abcdefghijklmnop" = [] ∧
    mainStartup ⟨"http://localhost:8181", "________________", 8000, 30⟩ = .exitCode 1 :=
  ⟨(validate_config_spec.1 "abcdefghijklmnop").mpr (by decide),
   validate_config_spec.2.2.2.2.2 _ (validate_config_spec.2.2.1 _ (by decide))⟩
